import Mathlib

/-!
Verification of the shared shader type definitions in
HoleDisplacement/ShaderTypes.h.

The header defines two buffer-index enumerations and five fixed-layout POD
structs shared between host code and GPU shaders.  We embed each struct as a
Lean structure whose scalar fields hold 32-bit words (Nat values below 2^32);
float fields carry their IEEE-754 single-precision bit pattern, which is all
the header specifies about them (the header is pure layout, no arithmetic).

The byte layout follows the C/simd ABI used by the source: every scalar is a
4-byte little-endian word, vector_float2 has size and alignment 8, and
vector_float4 has size and alignment 16.  With the explicit padding fields of
the source, no implicit padding arises in any of the five structs, so the
serializer is a plain concatenation of the 4-byte field words in declaration
order.
-/

namespace ShaderTypes

/-- Number of values of a 32-bit word, 2^32. -/
def WORD : Nat := 4294967296

/-- Store of an arbitrary integer into a 32-bit unsigned field: C converts by
wrapping modulo 2^32, so the stored value is the nonnegative remainder. -/
def uintStore (v : Int) : Nat := (v % 4294967296).toNat

/-- The BufferIndex enumeration of ShaderTypes.h (render-pass binding slots). -/
inductive BufferIndex where
  | vertices
  | instances
  | uniforms
deriving DecidableEq

/-- Numeric value of each BufferIndex constant, as declared in the source. -/
def BufferIndex.val : BufferIndex → Int
  | .vertices => 0
  | .instances => 1
  | .uniforms => 2

/-- The SimulationBufferIndex enumeration of ShaderTypes.h (compute-pass
binding slots). -/
inductive SimulationBufferIndex where
  | restPositions
  | states
  | instances
  | uniforms
  | touches
deriving DecidableEq

/-- Numeric value of each SimulationBufferIndex constant, as declared in the
source. -/
def SimulationBufferIndex.val : SimulationBufferIndex → Int
  | .restPositions => 0
  | .states => 1
  | .instances => 2
  | .uniforms => 3
  | .touches => 4

/-- A vector_float2 value: two 32-bit words (IEEE-754 bit patterns). -/
@[ext] structure Float2 where
  x : Nat
  y : Nat
deriving DecidableEq

/-- A vector_float4 value: four 32-bit words (IEEE-754 bit patterns). -/
@[ext] structure Float4 where
  x : Nat
  y : Nat
  z : Nat
  w : Nat
deriving DecidableEq

/-- Well-formedness of a vector_float2: both components are 32-bit words. -/
def Float2.wf (v : Float2) : Prop := v.x < WORD ∧ v.y < WORD

/-- Well-formedness of a vector_float4: all components are 32-bit words. -/
def Float4.wf (v : Float4) : Prop :=
  v.x < WORD ∧ v.y < WORD ∧ v.z < WORD ∧ v.w < WORD

instance (v : Float2) : Decidable v.wf := by unfold Float2.wf; infer_instance

instance (v : Float4) : Decidable v.wf := by unfold Float4.wf; infer_instance

/-- DotInstanceUniform: per-instance render data, a 2D center position. -/
@[ext] structure DotInstanceUniform where
  center : Float2
deriving DecidableEq

/-- FrameUniforms: per-frame global render parameters, fields in source
declaration order.  The fixed-size array gradientColors[4] of the source is
embedded as its four elements in index order. -/
@[ext] structure FrameUniforms where
  canvasSize : Float2
  dotRadius : Nat
  smoothing : Nat
  gradientStart : Float2
  gradientEnd : Float2
  time : Nat
  driftStrength : Nat
  gradientStopCount : Nat
  _padding : Nat
  gradientStops : Float4
  gradientColors0 : Float4
  gradientColors1 : Float4
  gradientColors2 : Float4
  gradientColors3 : Float4
deriving DecidableEq

/-- SimulationDotState: per-dot simulation state, offset and velocity. -/
@[ext] structure SimulationDotState where
  offset : Float2
  velocity : Float2
deriving DecidableEq

/-- SimulationTouch: one touch point packed into a vector_float4. -/
@[ext] structure SimulationTouch where
  position : Float4
deriving DecidableEq

/-- SimulationUniforms: per-step simulation parameters, fields in source
declaration order. -/
@[ext] structure SimulationUniforms where
  timeSpring : Float4
  displacementMass : Float4
  touchCount : Nat
  dotCount : Nat
  padding0 : Nat
  padding1 : Nat
deriving DecidableEq

/-- Well-formedness of a DotInstanceUniform: every word fits in 32 bits. -/
def DotInstanceUniform.wf (u : DotInstanceUniform) : Prop := u.center.wf

/-- Well-formedness of a FrameUniforms: every word fits in 32 bits. -/
def FrameUniforms.wf (u : FrameUniforms) : Prop :=
  u.canvasSize.wf ∧ u.dotRadius < WORD ∧ u.smoothing < WORD ∧
  u.gradientStart.wf ∧ u.gradientEnd.wf ∧ u.time < WORD ∧
  u.driftStrength < WORD ∧ u.gradientStopCount < WORD ∧ u._padding < WORD ∧
  u.gradientStops.wf ∧ u.gradientColors0.wf ∧ u.gradientColors1.wf ∧
  u.gradientColors2.wf ∧ u.gradientColors3.wf

/-- Well-formedness of a SimulationDotState: every word fits in 32 bits. -/
def SimulationDotState.wf (u : SimulationDotState) : Prop :=
  u.offset.wf ∧ u.velocity.wf

/-- Well-formedness of a SimulationTouch: every word fits in 32 bits. -/
def SimulationTouch.wf (u : SimulationTouch) : Prop := u.position.wf

/-- Well-formedness of a SimulationUniforms: every word fits in 32 bits. -/
def SimulationUniforms.wf (u : SimulationUniforms) : Prop :=
  u.timeSpring.wf ∧ u.displacementMass.wf ∧ u.touchCount < WORD ∧
  u.dotCount < WORD ∧ u.padding0 < WORD ∧ u.padding1 < WORD

instance (u : DotInstanceUniform) : Decidable u.wf := by
  unfold DotInstanceUniform.wf; infer_instance

instance (u : FrameUniforms) : Decidable u.wf := by
  unfold FrameUniforms.wf; infer_instance

instance (u : SimulationDotState) : Decidable u.wf := by
  unfold SimulationDotState.wf; infer_instance

instance (u : SimulationTouch) : Decidable u.wf := by
  unfold SimulationTouch.wf; infer_instance

instance (u : SimulationUniforms) : Decidable u.wf := by
  unfold SimulationUniforms.wf; infer_instance

/-- Little-endian bytes of a 32-bit word. -/
def bytesOfWord (n : Nat) : List Nat :=
  [n % 256, n / 256 % 256, n / 65536 % 256, n / 16777216 % 256]

/-- The 32-bit word stored little-endian at byte offset i of a byte list
(missing bytes read as 0). -/
def wordAt (bs : List Nat) (i : Nat) : Nat :=
  bs.getD i 0 + 256 * bs.getD (i + 1) 0 + 65536 * bs.getD (i + 2) 0 +
    16777216 * bs.getD (i + 3) 0

/-- Concatenation of the little-endian bytes of a list of 32-bit words. -/
def wordsBytes : List Nat → List Nat
  | [] => []
  | w :: ws => bytesOfWord w ++ wordsBytes ws

/-- The 32-bit words of a DotInstanceUniform in layout order. -/
def DotInstanceUniform.words (u : DotInstanceUniform) : List Nat :=
  [u.center.x, u.center.y]

/-- The 32-bit words of a FrameUniforms in layout order. -/
def FrameUniforms.words (u : FrameUniforms) : List Nat :=
  [u.canvasSize.x, u.canvasSize.y,
   u.dotRadius, u.smoothing,
   u.gradientStart.x, u.gradientStart.y,
   u.gradientEnd.x, u.gradientEnd.y,
   u.time, u.driftStrength,
   u.gradientStopCount, u._padding,
   u.gradientStops.x, u.gradientStops.y, u.gradientStops.z, u.gradientStops.w,
   u.gradientColors0.x, u.gradientColors0.y,
   u.gradientColors0.z, u.gradientColors0.w,
   u.gradientColors1.x, u.gradientColors1.y,
   u.gradientColors1.z, u.gradientColors1.w,
   u.gradientColors2.x, u.gradientColors2.y,
   u.gradientColors2.z, u.gradientColors2.w,
   u.gradientColors3.x, u.gradientColors3.y,
   u.gradientColors3.z, u.gradientColors3.w]

/-- The 32-bit words of a SimulationDotState in layout order. -/
def SimulationDotState.words (u : SimulationDotState) : List Nat :=
  [u.offset.x, u.offset.y, u.velocity.x, u.velocity.y]

/-- The 32-bit words of a SimulationTouch in layout order. -/
def SimulationTouch.words (u : SimulationTouch) : List Nat :=
  [u.position.x, u.position.y, u.position.z, u.position.w]

/-- The 32-bit words of a SimulationUniforms in layout order. -/
def SimulationUniforms.words (u : SimulationUniforms) : List Nat :=
  [u.timeSpring.x, u.timeSpring.y, u.timeSpring.z, u.timeSpring.w,
   u.displacementMass.x, u.displacementMass.y,
   u.displacementMass.z, u.displacementMass.w,
   u.touchCount, u.dotCount, u.padding0, u.padding1]

/-- Serialized bytes of a DotInstanceUniform (8 bytes). -/
def DotInstanceUniform.serialize (u : DotInstanceUniform) : List Nat :=
  wordsBytes u.words

/-- Serialized bytes of a FrameUniforms (128 bytes). -/
def FrameUniforms.serialize (u : FrameUniforms) : List Nat :=
  wordsBytes u.words

/-- Serialized bytes of a SimulationDotState (16 bytes). -/
def SimulationDotState.serialize (u : SimulationDotState) : List Nat :=
  wordsBytes u.words

/-- Serialized bytes of a SimulationTouch (16 bytes). -/
def SimulationTouch.serialize (u : SimulationTouch) : List Nat :=
  wordsBytes u.words

/-- Serialized bytes of a SimulationUniforms (48 bytes). -/
def SimulationUniforms.serialize (u : SimulationUniforms) : List Nat :=
  wordsBytes u.words

/-- Total byte size of DotInstanceUniform under the C/simd ABI. -/
def DotInstanceUniform.byteSize : Nat := 8

/-- Total byte size of FrameUniforms under the C/simd ABI. -/
def FrameUniforms.byteSize : Nat := 128

/-- Total byte size of SimulationDotState under the C/simd ABI. -/
def SimulationDotState.byteSize : Nat := 16

/-- Total byte size of SimulationTouch under the C/simd ABI. -/
def SimulationTouch.byteSize : Nat := 16

/-- Total byte size of SimulationUniforms under the C/simd ABI. -/
def SimulationUniforms.byteSize : Nat := 48

/-- Byte offset of DotInstanceUniform.center. -/
def DotInstanceUniform.offCenter : Nat := 0

/-- Byte offset of FrameUniforms.canvasSize. -/
def FrameUniforms.offCanvasSize : Nat := 0

/-- Byte offset of FrameUniforms.dotRadius. -/
def FrameUniforms.offDotRadius : Nat := 8

/-- Byte offset of FrameUniforms.smoothing. -/
def FrameUniforms.offSmoothing : Nat := 12

/-- Byte offset of FrameUniforms.gradientStart. -/
def FrameUniforms.offGradientStart : Nat := 16

/-- Byte offset of FrameUniforms.gradientEnd. -/
def FrameUniforms.offGradientEnd : Nat := 24

/-- Byte offset of FrameUniforms.time. -/
def FrameUniforms.offTime : Nat := 32

/-- Byte offset of FrameUniforms.driftStrength. -/
def FrameUniforms.offDriftStrength : Nat := 36

/-- Byte offset of FrameUniforms.gradientStopCount. -/
def FrameUniforms.offGradientStopCount : Nat := 40

/-- Byte offset of the explicit padding field of FrameUniforms. -/
def FrameUniforms.offPadding : Nat := 44

/-- Byte offset of FrameUniforms.gradientStops. -/
def FrameUniforms.offGradientStops : Nat := 48

/-- Byte offset of the gradientColors array of FrameUniforms; element k lives
at this offset plus 16 * k. -/
def FrameUniforms.offGradientColors : Nat := 64

/-- Byte offset of SimulationDotState.offset. -/
def SimulationDotState.offOffset : Nat := 0

/-- Byte offset of SimulationDotState.velocity. -/
def SimulationDotState.offVelocity : Nat := 8

/-- Byte offset of SimulationTouch.position. -/
def SimulationTouch.offPosition : Nat := 0

/-- Byte offset of SimulationUniforms.timeSpring. -/
def SimulationUniforms.offTimeSpring : Nat := 0

/-- Byte offset of SimulationUniforms.displacementMass. -/
def SimulationUniforms.offDisplacementMass : Nat := 16

/-- Byte offset of SimulationUniforms.touchCount. -/
def SimulationUniforms.offTouchCount : Nat := 32

/-- Byte offset of SimulationUniforms.dotCount. -/
def SimulationUniforms.offDotCount : Nat := 36

/-- Byte offset of SimulationUniforms.padding0. -/
def SimulationUniforms.offPadding0 : Nat := 40

/-- Byte offset of SimulationUniforms.padding1. -/
def SimulationUniforms.offPadding1 : Nat := 44

/-- Read a DotInstanceUniform back from its bytes. -/
def DotInstanceUniform.deserialize (bs : List Nat) : DotInstanceUniform where
  center := ⟨wordAt bs 0, wordAt bs 4⟩

/-- Read a FrameUniforms back from its bytes. -/
def FrameUniforms.deserialize (bs : List Nat) : FrameUniforms where
  canvasSize := ⟨wordAt bs 0, wordAt bs 4⟩
  dotRadius := wordAt bs 8
  smoothing := wordAt bs 12
  gradientStart := ⟨wordAt bs 16, wordAt bs 20⟩
  gradientEnd := ⟨wordAt bs 24, wordAt bs 28⟩
  time := wordAt bs 32
  driftStrength := wordAt bs 36
  gradientStopCount := wordAt bs 40
  _padding := wordAt bs 44
  gradientStops := ⟨wordAt bs 48, wordAt bs 52, wordAt bs 56, wordAt bs 60⟩
  gradientColors0 := ⟨wordAt bs 64, wordAt bs 68, wordAt bs 72, wordAt bs 76⟩
  gradientColors1 := ⟨wordAt bs 80, wordAt bs 84, wordAt bs 88, wordAt bs 92⟩
  gradientColors2 := ⟨wordAt bs 96, wordAt bs 100, wordAt bs 104, wordAt bs 108⟩
  gradientColors3 := ⟨wordAt bs 112, wordAt bs 116, wordAt bs 120, wordAt bs 124⟩

/-- Read a SimulationDotState back from its bytes. -/
def SimulationDotState.deserialize (bs : List Nat) : SimulationDotState where
  offset := ⟨wordAt bs 0, wordAt bs 4⟩
  velocity := ⟨wordAt bs 8, wordAt bs 12⟩

/-- Read a SimulationTouch back from its bytes. -/
def SimulationTouch.deserialize (bs : List Nat) : SimulationTouch where
  position := ⟨wordAt bs 0, wordAt bs 4, wordAt bs 8, wordAt bs 12⟩

/-- Read a SimulationUniforms back from its bytes. -/
def SimulationUniforms.deserialize (bs : List Nat) : SimulationUniforms where
  timeSpring := ⟨wordAt bs 0, wordAt bs 4, wordAt bs 8, wordAt bs 12⟩
  displacementMass := ⟨wordAt bs 16, wordAt bs 20, wordAt bs 24, wordAt bs 28⟩
  touchCount := wordAt bs 32
  dotCount := wordAt bs 36
  padding0 := wordAt bs 40
  padding1 := wordAt bs 44

/-- Declared capacity of the gradientColors array of FrameUniforms, the 4 in
vector_float4 gradientColors[4]. -/
def FrameUniforms.gradientColorsCapacity : Nat := 4

/-- The gradientColors array of a FrameUniforms as a list in index order. -/
def FrameUniforms.gradientColorsList (u : FrameUniforms) : List Float4 :=
  [u.gradientColors0, u.gradientColors1, u.gradientColors2, u.gradientColors3]

/-- Host-side write of the canvasSize field. -/
def FrameUniforms.setCanvasSize (u : FrameUniforms) (v : Float2) :
    FrameUniforms := { u with canvasSize := v }

/-- Host-side write of the dotRadius field. -/
def FrameUniforms.setDotRadius (u : FrameUniforms) (v : Nat) :
    FrameUniforms := { u with dotRadius := v }

/-- Host-side write of the smoothing field. -/
def FrameUniforms.setSmoothing (u : FrameUniforms) (v : Nat) :
    FrameUniforms := { u with smoothing := v }

/-- Host-side write of the gradientStart field. -/
def FrameUniforms.setGradientStart (u : FrameUniforms) (v : Float2) :
    FrameUniforms := { u with gradientStart := v }

/-- Host-side write of the gradientEnd field. -/
def FrameUniforms.setGradientEnd (u : FrameUniforms) (v : Float2) :
    FrameUniforms := { u with gradientEnd := v }

/-- Host-side write of the time field. -/
def FrameUniforms.setTime (u : FrameUniforms) (v : Nat) :
    FrameUniforms := { u with time := v }

/-- Host-side write of the gradientStopCount field: the field has C type
uint, so the written integer wraps modulo 2^32. -/
def FrameUniforms.setGradientStopCount (u : FrameUniforms) (v : Int) :
    FrameUniforms := { u with gradientStopCount := uintStore v }

/-- Host-side write of the explicit padding field of FrameUniforms: the field
has C type uint, so the written integer wraps modulo 2^32. -/
def FrameUniforms.setPadding (u : FrameUniforms) (v : Int) :
    FrameUniforms := { u with _padding := uintStore v }

/-- Host-side write of the gradientStops field. -/
def FrameUniforms.setGradientStops (u : FrameUniforms) (v : Float4) :
    FrameUniforms := { u with gradientStops := v }

/-- Host-side write of gradientColors[0]. -/
def FrameUniforms.setGradientColors0 (u : FrameUniforms) (v : Float4) :
    FrameUniforms := { u with gradientColors0 := v }

/-- Host-side write of gradientColors[1]. -/
def FrameUniforms.setGradientColors1 (u : FrameUniforms) (v : Float4) :
    FrameUniforms := { u with gradientColors1 := v }

/-- Host-side write of gradientColors[2]. -/
def FrameUniforms.setGradientColors2 (u : FrameUniforms) (v : Float4) :
    FrameUniforms := { u with gradientColors2 := v }

/-- Host-side write of gradientColors[3]. -/
def FrameUniforms.setGradientColors3 (u : FrameUniforms) (v : Float4) :
    FrameUniforms := { u with gradientColors3 := v }

/-- Host-side write of the timeSpring field. -/
def SimulationUniforms.setTimeSpring (u : SimulationUniforms) (v : Float4) :
    SimulationUniforms := { u with timeSpring := v }

/-- Host-side write of the x component of displacementMass. -/
def SimulationUniforms.setDisplacementMassX (u : SimulationUniforms)
    (v : Nat) : SimulationUniforms :=
  { u with displacementMass := { u.displacementMass with x := v } }

/-- Host-side write of the y component of displacementMass. -/
def SimulationUniforms.setDisplacementMassY (u : SimulationUniforms)
    (v : Nat) : SimulationUniforms :=
  { u with displacementMass := { u.displacementMass with y := v } }

/-- Host-side write of the z component of displacementMass. -/
def SimulationUniforms.setDisplacementMassZ (u : SimulationUniforms)
    (v : Nat) : SimulationUniforms :=
  { u with displacementMass := { u.displacementMass with z := v } }

/-- Host-side write of the touchCount field: the field has C type uint, so
the written integer wraps modulo 2^32. -/
def SimulationUniforms.setTouchCount (u : SimulationUniforms) (v : Int) :
    SimulationUniforms := { u with touchCount := uintStore v }

/-- Host-side write of the dotCount field: the field has C type uint, so the
written integer wraps modulo 2^32. -/
def SimulationUniforms.setDotCount (u : SimulationUniforms) (v : Int) :
    SimulationUniforms := { u with dotCount := uintStore v }

/-- Host-side write of the padding0 field: the field has C type uint, so the
written integer wraps modulo 2^32. -/
def SimulationUniforms.setPadding0 (u : SimulationUniforms) (v : Int) :
    SimulationUniforms := { u with padding0 := uintStore v }

/-- Host-side write of the padding1 field: the field has C type uint, so the
written integer wraps modulo 2^32. -/
def SimulationUniforms.setPadding1 (u : SimulationUniforms) (v : Int) :
    SimulationUniforms := { u with padding1 := uintStore v }

/-- The fields of a FrameUniforms as a tuple in declaration order. -/
def FrameUniforms.toTuple (u : FrameUniforms) :
    Float2 × Nat × Nat × Float2 × Float2 × Nat × Nat × Nat × Nat × Float4 ×
      Float4 × Float4 × Float4 × Float4 :=
  (u.canvasSize, u.dotRadius, u.smoothing, u.gradientStart, u.gradientEnd,
   u.time, u.driftStrength, u.gradientStopCount, u._padding, u.gradientStops,
   u.gradientColors0, u.gradientColors1, u.gradientColors2, u.gradientColors3)

/-- Rebuild a FrameUniforms from the tuple of its fields. -/
def FrameUniforms.ofTuple
    (t : Float2 × Nat × Nat × Float2 × Float2 × Nat × Nat × Nat × Nat ×
      Float4 × Float4 × Float4 × Float4 × Float4) : FrameUniforms :=
  match t with
  | (cs, dr, sm, gs, ge, tm, ds, gc, pad, stops, c0, c1, c2, c3) =>
    ⟨cs, dr, sm, gs, ge, tm, ds, gc, pad, stops, c0, c1, c2, c3⟩

/-- The fields of a SimulationUniforms as a tuple in declaration order. -/
def SimulationUniforms.toTuple (u : SimulationUniforms) :
    Float4 × Float4 × Nat × Nat × Nat × Nat :=
  (u.timeSpring, u.displacementMass, u.touchCount, u.dotCount, u.padding0,
   u.padding1)

/-- Rebuild a SimulationUniforms from the tuple of its fields. -/
def SimulationUniforms.ofTuple
    (t : Float4 × Float4 × Nat × Nat × Nat × Nat) : SimulationUniforms :=
  match t with
  | (ts, dm, tc, dc, p0, p1) => ⟨ts, dm, tc, dc, p0, p1⟩

/-- Modelled from the spec: the header declares SimulationUniforms but no
constructor, and the construction lives in host code outside src.  The spec
scenario constructs a value from timeSpring, displacementMass, touchCount and
dotCount, with the padding fields defaulting to 0. -/
def mkSimulationUniforms (ts dm : Float4) (tc dc : Nat) : SimulationUniforms :=
  ⟨ts, dm, tc, dc, 0, 0⟩

/-- A concrete DotInstanceUniform used as evaluation input. -/
def sampleDot : DotInstanceUniform := ⟨⟨3, 5⟩⟩

/-- A concrete FrameUniforms used as evaluation input; it has 4 gradient
stops and 4 distinct colors. -/
def sampleFrame : FrameUniforms :=
  ⟨⟨1920, 1080⟩, 24, 2, ⟨0, 0⟩, ⟨1065353216, 1065353216⟩, 7, 0, 4, 0,
   ⟨10, 20, 30, 40⟩, ⟨1, 2, 3, 4⟩, ⟨5, 6, 7, 8⟩, ⟨9, 10, 11, 12⟩,
   ⟨13, 14, 15, 16⟩⟩

/-- A concrete SimulationDotState used as evaluation input. -/
def sampleDotState : SimulationDotState := ⟨⟨1, 2⟩, ⟨3, 4⟩⟩

/-- A concrete SimulationTouch used as evaluation input. -/
def sampleTouch : SimulationTouch := ⟨⟨100, 200, 0, 0⟩⟩

/-- A concrete SimulationUniforms used as evaluation input. -/
def sampleSim : SimulationUniforms :=
  ⟨⟨1015222895, 1127481344, 1094713344, 1109393408⟩,
   ⟨1103101952, 1073741824, 1065353216, 0⟩, 1, 100, 0, 0⟩

/-- A FrameUniforms whose gradientStopCount exceeds the gradientColors
capacity; every field is a valid 32-bit word. -/
def overflowFrame : FrameUniforms :=
  { sampleFrame with gradientStopCount := 5 }

/-- The SimulationUniforms of the spec scenario: timeSpring and
displacementMass carry the IEEE-754 single-precision bit patterns of
(0.016, 180.0, 12.0, 40.0) and (24.0, 2.0, 1.0, 0.0), namely 0x3C83126F,
0x43340000, 0x41400000, 0x42200000 and 0x41C00000, 0x40000000, 0x3F800000,
0x00000000. -/
def scenarioSim : SimulationUniforms :=
  mkSimulationUniforms ⟨1015222895, 1127481344, 1094713344, 1109393408⟩
    ⟨1103101952, 1073741824, 1065353216, 0⟩ 1 100

/-- Reassembling the four little-endian bytes of a 32-bit word yields the
word. -/
theorem word_extract (w : Nat) (h : w < WORD) :
    w % 256 + 256 * (w / 256 % 256) + 65536 * (w / 65536 % 256) +
      16777216 * (w / 16777216 % 256) = w := by
  unfold WORD at h
  omega

/-- A word sits at offset i of a byte list when the four bytes there are its
little-endian bytes. -/
theorem wordAt_eq_of_extract (bs : List Nat) (i w : Nat) (h : w < WORD)
    (e0 : bs.getD i 0 = w % 256) (e1 : bs.getD (i + 1) 0 = w / 256 % 256)
    (e2 : bs.getD (i + 2) 0 = w / 65536 % 256)
    (e3 : bs.getD (i + 3) 0 = w / 16777216 % 256) :
    wordAt bs i = w := by
  unfold wordAt
  rw [e0, e1, e2, e3]
  exact word_extract w h

/-- Deserializing the serialized bytes of a well-formed DotInstanceUniform
yields it back. -/
theorem DotInstanceUniform.roundtripDot (u : DotInstanceUniform) (h : u.wf) :
    DotInstanceUniform.deserialize u.serialize = u := by
  obtain ⟨h0, h1⟩ := h
  ext
  · exact wordAt_eq_of_extract _ 0 _ h0 rfl rfl rfl rfl
  · exact wordAt_eq_of_extract _ 4 _ h1 rfl rfl rfl rfl

/-- Deserializing the serialized bytes of a well-formed FrameUniforms yields
it back. -/
theorem FrameUniforms.roundtripFrame (u : FrameUniforms) (h : u.wf) :
    FrameUniforms.deserialize u.serialize = u := by
  obtain ⟨⟨hcsx, hcsy⟩, hdr, hsm, ⟨hgsx, hgsy⟩, ⟨hgex, hgey⟩, ht, hds, hgc,
    hpad, ⟨hs0, hs1, hs2, hs3⟩, ⟨h00, h01, h02, h03⟩, ⟨h10, h11, h12, h13⟩,
    ⟨h20, h21, h22, h23⟩, ⟨h30, h31, h32, h33⟩⟩ := h
  ext
  · exact wordAt_eq_of_extract _ 0 _ hcsx rfl rfl rfl rfl
  · exact wordAt_eq_of_extract _ 4 _ hcsy rfl rfl rfl rfl
  · exact wordAt_eq_of_extract _ 8 _ hdr rfl rfl rfl rfl
  · exact wordAt_eq_of_extract _ 12 _ hsm rfl rfl rfl rfl
  · exact wordAt_eq_of_extract _ 16 _ hgsx rfl rfl rfl rfl
  · exact wordAt_eq_of_extract _ 20 _ hgsy rfl rfl rfl rfl
  · exact wordAt_eq_of_extract _ 24 _ hgex rfl rfl rfl rfl
  · exact wordAt_eq_of_extract _ 28 _ hgey rfl rfl rfl rfl
  · exact wordAt_eq_of_extract _ 32 _ ht rfl rfl rfl rfl
  · exact wordAt_eq_of_extract _ 36 _ hds rfl rfl rfl rfl
  · exact wordAt_eq_of_extract _ 40 _ hgc rfl rfl rfl rfl
  · exact wordAt_eq_of_extract _ 44 _ hpad rfl rfl rfl rfl
  · exact wordAt_eq_of_extract _ 48 _ hs0 rfl rfl rfl rfl
  · exact wordAt_eq_of_extract _ 52 _ hs1 rfl rfl rfl rfl
  · exact wordAt_eq_of_extract _ 56 _ hs2 rfl rfl rfl rfl
  · exact wordAt_eq_of_extract _ 60 _ hs3 rfl rfl rfl rfl
  · exact wordAt_eq_of_extract _ 64 _ h00 rfl rfl rfl rfl
  · exact wordAt_eq_of_extract _ 68 _ h01 rfl rfl rfl rfl
  · exact wordAt_eq_of_extract _ 72 _ h02 rfl rfl rfl rfl
  · exact wordAt_eq_of_extract _ 76 _ h03 rfl rfl rfl rfl
  · exact wordAt_eq_of_extract _ 80 _ h10 rfl rfl rfl rfl
  · exact wordAt_eq_of_extract _ 84 _ h11 rfl rfl rfl rfl
  · exact wordAt_eq_of_extract _ 88 _ h12 rfl rfl rfl rfl
  · exact wordAt_eq_of_extract _ 92 _ h13 rfl rfl rfl rfl
  · exact wordAt_eq_of_extract _ 96 _ h20 rfl rfl rfl rfl
  · exact wordAt_eq_of_extract _ 100 _ h21 rfl rfl rfl rfl
  · exact wordAt_eq_of_extract _ 104 _ h22 rfl rfl rfl rfl
  · exact wordAt_eq_of_extract _ 108 _ h23 rfl rfl rfl rfl
  · exact wordAt_eq_of_extract _ 112 _ h30 rfl rfl rfl rfl
  · exact wordAt_eq_of_extract _ 116 _ h31 rfl rfl rfl rfl
  · exact wordAt_eq_of_extract _ 120 _ h32 rfl rfl rfl rfl
  · exact wordAt_eq_of_extract _ 124 _ h33 rfl rfl rfl rfl

/-- Deserializing the serialized bytes of a well-formed SimulationDotState
yields it back. -/
theorem SimulationDotState.roundtripState (u : SimulationDotState) (h : u.wf) :
    SimulationDotState.deserialize u.serialize = u := by
  obtain ⟨⟨h0, h1⟩, ⟨h2, h3⟩⟩ := h
  ext
  · exact wordAt_eq_of_extract _ 0 _ h0 rfl rfl rfl rfl
  · exact wordAt_eq_of_extract _ 4 _ h1 rfl rfl rfl rfl
  · exact wordAt_eq_of_extract _ 8 _ h2 rfl rfl rfl rfl
  · exact wordAt_eq_of_extract _ 12 _ h3 rfl rfl rfl rfl

/-- Deserializing the serialized bytes of a well-formed SimulationTouch
yields it back. -/
theorem SimulationTouch.roundtripTouch (u : SimulationTouch) (h : u.wf) :
    SimulationTouch.deserialize u.serialize = u := by
  obtain ⟨h0, h1, h2, h3⟩ := h
  ext
  · exact wordAt_eq_of_extract _ 0 _ h0 rfl rfl rfl rfl
  · exact wordAt_eq_of_extract _ 4 _ h1 rfl rfl rfl rfl
  · exact wordAt_eq_of_extract _ 8 _ h2 rfl rfl rfl rfl
  · exact wordAt_eq_of_extract _ 12 _ h3 rfl rfl rfl rfl

/-- Deserializing the serialized bytes of a well-formed SimulationUniforms
yields it back. -/
theorem SimulationUniforms.roundtripSim (u : SimulationUniforms) (h : u.wf) :
    SimulationUniforms.deserialize u.serialize = u := by
  obtain ⟨⟨hts0, hts1, hts2, hts3⟩, ⟨hdm0, hdm1, hdm2, hdm3⟩, htc, hdc,
    hp0, hp1⟩ := h
  ext
  · exact wordAt_eq_of_extract _ 0 _ hts0 rfl rfl rfl rfl
  · exact wordAt_eq_of_extract _ 4 _ hts1 rfl rfl rfl rfl
  · exact wordAt_eq_of_extract _ 8 _ hts2 rfl rfl rfl rfl
  · exact wordAt_eq_of_extract _ 12 _ hts3 rfl rfl rfl rfl
  · exact wordAt_eq_of_extract _ 16 _ hdm0 rfl rfl rfl rfl
  · exact wordAt_eq_of_extract _ 20 _ hdm1 rfl rfl rfl rfl
  · exact wordAt_eq_of_extract _ 24 _ hdm2 rfl rfl rfl rfl
  · exact wordAt_eq_of_extract _ 28 _ hdm3 rfl rfl rfl rfl
  · exact wordAt_eq_of_extract _ 32 _ htc rfl rfl rfl rfl
  · exact wordAt_eq_of_extract _ 36 _ hdc rfl rfl rfl rfl
  · exact wordAt_eq_of_extract _ 40 _ hp0 rfl rfl rfl rfl
  · exact wordAt_eq_of_extract _ 44 _ hp1 rfl rfl rfl rfl

/-- Claim C1: the enumeration BufferIndex has exactly the values Vertices=0,
Instances=1, Uniforms=2, and SimulationBufferIndex has exactly the values
RestPositions=0, States=1, Instances=2, Uniforms=3, Touches=4, with no gaps
or renumbering: each constant has the stated value and the listed constants
are all the constants. -/
theorem claim_C1_enum_values :
    (BufferIndex.val .vertices = 0 ∧ BufferIndex.val .instances = 1 ∧
      BufferIndex.val .uniforms = 2) ∧
    (∀ b : BufferIndex,
      b = .vertices ∨ b = .instances ∨ b = .uniforms) ∧
    (SimulationBufferIndex.val .restPositions = 0 ∧
      SimulationBufferIndex.val .states = 1 ∧
      SimulationBufferIndex.val .instances = 2 ∧
      SimulationBufferIndex.val .uniforms = 3 ∧
      SimulationBufferIndex.val .touches = 4) ∧
    (∀ b : SimulationBufferIndex,
      b = .restPositions ∨ b = .states ∨ b = .instances ∨ b = .uniforms ∨
        b = .touches) := by
  refine ⟨⟨rfl, rfl, rfl⟩, fun b => ?_, ⟨rfl, rfl, rfl, rfl, rfl⟩,
    fun b => ?_⟩
  · cases b <;> simp
  · cases b <;> simp

/-- Claim C2: for every struct of the file, deserializing the serialized
bytes of a well-formed value yields the value back field-by-field, the byte
size of the serialization is the agreed total size, and every field is
recovered at its agreed byte offset. -/
theorem claim_C2_layout :
    (∀ u : DotInstanceUniform, u.wf →
      DotInstanceUniform.deserialize u.serialize = u ∧
      u.serialize.length = DotInstanceUniform.byteSize ∧
      wordAt u.serialize DotInstanceUniform.offCenter = u.center.x ∧
      wordAt u.serialize (DotInstanceUniform.offCenter + 4) = u.center.y) ∧
    (∀ u : FrameUniforms, u.wf →
      FrameUniforms.deserialize u.serialize = u ∧
      u.serialize.length = FrameUniforms.byteSize ∧
      wordAt u.serialize FrameUniforms.offCanvasSize = u.canvasSize.x ∧
      wordAt u.serialize (FrameUniforms.offCanvasSize + 4) = u.canvasSize.y ∧
      wordAt u.serialize FrameUniforms.offDotRadius = u.dotRadius ∧
      wordAt u.serialize FrameUniforms.offSmoothing = u.smoothing ∧
      wordAt u.serialize FrameUniforms.offGradientStart = u.gradientStart.x ∧
      wordAt u.serialize (FrameUniforms.offGradientStart + 4) =
        u.gradientStart.y ∧
      wordAt u.serialize FrameUniforms.offGradientEnd = u.gradientEnd.x ∧
      wordAt u.serialize (FrameUniforms.offGradientEnd + 4) =
        u.gradientEnd.y ∧
      wordAt u.serialize FrameUniforms.offTime = u.time ∧
      wordAt u.serialize FrameUniforms.offDriftStrength = u.driftStrength ∧
      wordAt u.serialize FrameUniforms.offGradientStopCount =
        u.gradientStopCount ∧
      wordAt u.serialize FrameUniforms.offPadding = u._padding ∧
      wordAt u.serialize FrameUniforms.offGradientStops = u.gradientStops.x ∧
      wordAt u.serialize FrameUniforms.offGradientColors =
        u.gradientColors0.x ∧
      wordAt u.serialize (FrameUniforms.offGradientColors + 16) =
        u.gradientColors1.x ∧
      wordAt u.serialize (FrameUniforms.offGradientColors + 32) =
        u.gradientColors2.x ∧
      wordAt u.serialize (FrameUniforms.offGradientColors + 48) =
        u.gradientColors3.x) ∧
    (∀ u : SimulationDotState, u.wf →
      SimulationDotState.deserialize u.serialize = u ∧
      u.serialize.length = SimulationDotState.byteSize ∧
      wordAt u.serialize SimulationDotState.offOffset = u.offset.x ∧
      wordAt u.serialize (SimulationDotState.offOffset + 4) = u.offset.y ∧
      wordAt u.serialize SimulationDotState.offVelocity = u.velocity.x ∧
      wordAt u.serialize (SimulationDotState.offVelocity + 4) =
        u.velocity.y) ∧
    (∀ u : SimulationTouch, u.wf →
      SimulationTouch.deserialize u.serialize = u ∧
      u.serialize.length = SimulationTouch.byteSize ∧
      wordAt u.serialize SimulationTouch.offPosition = u.position.x ∧
      wordAt u.serialize (SimulationTouch.offPosition + 4) = u.position.y ∧
      wordAt u.serialize (SimulationTouch.offPosition + 8) = u.position.z ∧
      wordAt u.serialize (SimulationTouch.offPosition + 12) =
        u.position.w) ∧
    (∀ u : SimulationUniforms, u.wf →
      SimulationUniforms.deserialize u.serialize = u ∧
      u.serialize.length = SimulationUniforms.byteSize ∧
      wordAt u.serialize SimulationUniforms.offTimeSpring = u.timeSpring.x ∧
      wordAt u.serialize SimulationUniforms.offDisplacementMass =
        u.displacementMass.x ∧
      wordAt u.serialize SimulationUniforms.offTouchCount = u.touchCount ∧
      wordAt u.serialize SimulationUniforms.offDotCount = u.dotCount ∧
      wordAt u.serialize SimulationUniforms.offPadding0 = u.padding0 ∧
      wordAt u.serialize SimulationUniforms.offPadding1 = u.padding1) := by
  refine ⟨fun u h => ?_, fun u h => ?_, fun u h => ?_, fun u h => ?_,
    fun u h => ?_⟩
  · have hr := DotInstanceUniform.roundtripDot u h
    exact ⟨hr, rfl, congrArg (fun v => v.center.x) hr,
      congrArg (fun v => v.center.y) hr⟩
  · have hr := FrameUniforms.roundtripFrame u h
    exact ⟨hr, rfl,
      congrArg (fun v => v.canvasSize.x) hr,
      congrArg (fun v => v.canvasSize.y) hr,
      congrArg (fun v => v.dotRadius) hr,
      congrArg (fun v => v.smoothing) hr,
      congrArg (fun v => v.gradientStart.x) hr,
      congrArg (fun v => v.gradientStart.y) hr,
      congrArg (fun v => v.gradientEnd.x) hr,
      congrArg (fun v => v.gradientEnd.y) hr,
      congrArg (fun v => v.time) hr,
      congrArg (fun v => v.driftStrength) hr,
      congrArg (fun v => v.gradientStopCount) hr,
      congrArg (fun v => v._padding) hr,
      congrArg (fun v => v.gradientStops.x) hr,
      congrArg (fun v => v.gradientColors0.x) hr,
      congrArg (fun v => v.gradientColors1.x) hr,
      congrArg (fun v => v.gradientColors2.x) hr,
      congrArg (fun v => v.gradientColors3.x) hr⟩
  · have hr := SimulationDotState.roundtripState u h
    exact ⟨hr, rfl, congrArg (fun v => v.offset.x) hr,
      congrArg (fun v => v.offset.y) hr,
      congrArg (fun v => v.velocity.x) hr,
      congrArg (fun v => v.velocity.y) hr⟩
  · have hr := SimulationTouch.roundtripTouch u h
    exact ⟨hr, rfl, congrArg (fun v => v.position.x) hr,
      congrArg (fun v => v.position.y) hr,
      congrArg (fun v => v.position.z) hr,
      congrArg (fun v => v.position.w) hr⟩
  · have hr := SimulationUniforms.roundtripSim u h
    exact ⟨hr, rfl, congrArg (fun v => v.timeSpring.x) hr,
      congrArg (fun v => v.displacementMass.x) hr,
      congrArg (fun v => v.touchCount) hr,
      congrArg (fun v => v.dotCount) hr,
      congrArg (fun v => v.padding0) hr,
      congrArg (fun v => v.padding1) hr⟩

/-- Claim C2 witness: the layout theorem evaluated at one concrete value of
each struct. -/
theorem claim_C2_layout_witness :
    sampleDot.wf ∧ sampleFrame.wf ∧ sampleDotState.wf ∧ sampleTouch.wf ∧
    sampleSim.wf ∧
    DotInstanceUniform.deserialize sampleDot.serialize = sampleDot ∧
    FrameUniforms.deserialize sampleFrame.serialize = sampleFrame ∧
    SimulationDotState.deserialize sampleDotState.serialize =
      sampleDotState ∧
    SimulationTouch.deserialize sampleTouch.serialize = sampleTouch ∧
    SimulationUniforms.deserialize sampleSim.serialize = sampleSim := by
  refine ⟨by decide, by decide, by decide, by decide, by decide,
    ?_, ?_, ?_, ?_, ?_⟩
  · exact (claim_C2_layout.1 sampleDot (by decide)).1
  · exact (claim_C2_layout.2.1 sampleFrame (by decide)).1
  · exact (claim_C2_layout.2.2.1 sampleDotState (by decide)).1
  · exact (claim_C2_layout.2.2.2.1 sampleTouch (by decide)).1
  · exact (claim_C2_layout.2.2.2.2 sampleSim (by decide)).1

/-- Claim C3: the gradientColors array has capacity exactly 4, and for every
well-formed FrameUniforms populated with gradientStopCount = 4 and 4
pairwise distinct colors, a serialize and copy cycle returns all 4 color
values unchanged. -/
theorem claim_C3_gradient_colors :
    FrameUniforms.gradientColorsCapacity = 4 ∧
    (∀ u : FrameUniforms,
      u.gradientColorsList.length = FrameUniforms.gradientColorsCapacity) ∧
    (∀ u : FrameUniforms, u.wf → u.gradientStopCount = 4 →
      u.gradientColors0 ≠ u.gradientColors1 →
      u.gradientColors0 ≠ u.gradientColors2 →
      u.gradientColors0 ≠ u.gradientColors3 →
      u.gradientColors1 ≠ u.gradientColors2 →
      u.gradientColors1 ≠ u.gradientColors3 →
      u.gradientColors2 ≠ u.gradientColors3 →
      (FrameUniforms.deserialize u.serialize).gradientColors0 =
        u.gradientColors0 ∧
      (FrameUniforms.deserialize u.serialize).gradientColors1 =
        u.gradientColors1 ∧
      (FrameUniforms.deserialize u.serialize).gradientColors2 =
        u.gradientColors2 ∧
      (FrameUniforms.deserialize u.serialize).gradientColors3 =
        u.gradientColors3) := by
  refine ⟨rfl, fun u => rfl,
    fun u h h4 d1 d2 d3 d4 d5 d6 => ?_⟩
  have hr := FrameUniforms.roundtripFrame u h
  exact ⟨congrArg (fun v => v.gradientColors0) hr,
    congrArg (fun v => v.gradientColors1) hr,
    congrArg (fun v => v.gradientColors2) hr,
    congrArg (fun v => v.gradientColors3) hr⟩

/-- Claim C3 witness: the color round-trip evaluated at a concrete
FrameUniforms with 4 stops and 4 distinct colors. -/
theorem claim_C3_gradient_colors_witness :
    sampleFrame.wf ∧ sampleFrame.gradientStopCount = 4 ∧
    sampleFrame.gradientColors0 ≠ sampleFrame.gradientColors1 ∧
    (FrameUniforms.deserialize sampleFrame.serialize).gradientColors0 =
      sampleFrame.gradientColors0 ∧
    (FrameUniforms.deserialize sampleFrame.serialize).gradientColors1 =
      sampleFrame.gradientColors1 ∧
    (FrameUniforms.deserialize sampleFrame.serialize).gradientColors2 =
      sampleFrame.gradientColors2 ∧
    (FrameUniforms.deserialize sampleFrame.serialize).gradientColors3 =
      sampleFrame.gradientColors3 := by
  have h := claim_C3_gradient_colors.2.2 sampleFrame (by decide) (by decide)
    (by decide) (by decide) (by decide) (by decide) (by decide) (by decide)
  exact ⟨by decide, by decide, by decide, h.1, h.2.1, h.2.2.1, h.2.2.2⟩

/-- Claim C4 counterexample: a FrameUniforms value whose gradientStopCount is
5, a valid 32-bit value exceeding the gradientColors capacity 4; nothing in
the struct definition enforces the stated invariant. -/
theorem claim_C4_counterexample :
    overflowFrame.wf ∧ overflowFrame.gradientStopCount = 5 ∧
    ¬ overflowFrame.gradientStopCount ≤
        FrameUniforms.gradientColorsCapacity := by
  decide

/-- Claim C4 amended: the capacity of gradientColors is exactly 4, but the
struct definition does not constrain gradientStopCount to it: every 32-bit
value, including values above 4, is storable in a well-formed FrameUniforms,
so the invariant is a contract on producers, not a property of every value.
-/
theorem claim_C4_stop_count_unconstrained :
    FrameUniforms.gradientColorsCapacity = 4 ∧
    ∀ n : Nat, ∃ u : FrameUniforms, u.wf ∧ u.gradientStopCount = n % WORD := by
  refine ⟨rfl, fun n => ⟨{ sampleFrame with gradientStopCount := n % WORD },
    ?_, rfl⟩⟩
  obtain ⟨a, b, c, d, e, f, g, -, i, j, k, l, m, o⟩ :=
    (by decide : sampleFrame.wf)
  exact ⟨a, b, c, d, e, f, g, Nat.mod_lt n (by decide), i, j, k, l, m, o⟩

/-- Claim C5: FrameUniforms consists, in declaration order, of canvasSize,
dotRadius, smoothing, gradientStart, gradientEnd, time, driftStrength,
gradientStopCount, the explicit padding word, gradientStops and the 4
gradientColors, and nothing else: the struct is in bijection with the tuple
of exactly these fields in this order. -/
theorem claim_C5_frame_fields :
    (∀ u : FrameUniforms, FrameUniforms.ofTuple u.toTuple = u) ∧
    (∀ t, FrameUniforms.toTuple (FrameUniforms.ofTuple t) = t) := by
  constructor
  · intro u
    rfl
  · intro t
    obtain ⟨cs, dr, sm, gs, ge, tm, ds, gc, pad, stops, c0, c1, c2, c3⟩ := t
    rfl

/-- Claim C6: SimulationUniforms consists, in declaration order, of
timeSpring, displacementMass, touchCount, dotCount, padding0 and padding1,
and nothing else: the struct is in bijection with the tuple of exactly these
fields in this order. -/
theorem claim_C6_sim_fields :
    (∀ u : SimulationUniforms, SimulationUniforms.ofTuple u.toTuple = u) ∧
    (∀ t, SimulationUniforms.toTuple (SimulationUniforms.ofTuple t) = t) := by
  constructor
  · intro u
    rfl
  · intro t
    obtain ⟨ts, dm, tc, dc, p0, p1⟩ := t
    rfl

/-- Claim C7: the SimulationUniforms built from the spec scenario values, in
IEEE-754 bit patterns timeSpring = (0.016, 180.0, 12.0, 40.0) and
displacementMass = (24.0, 2.0, 1.0, 0.0) with touchCount = 1 and
dotCount = 100, reads back every field as written, the padding fields
default to 0, and a serialize and copy cycle preserves the value. -/
theorem claim_C7_sim_scenario :
    scenarioSim.timeSpring = ⟨1015222895, 1127481344, 1094713344,
      1109393408⟩ ∧
    scenarioSim.displacementMass = ⟨1103101952, 1073741824, 1065353216, 0⟩ ∧
    scenarioSim.touchCount = 1 ∧ scenarioSim.dotCount = 100 ∧
    scenarioSim.padding0 = 0 ∧ scenarioSim.padding1 = 0 ∧
    SimulationUniforms.deserialize scenarioSim.serialize = scenarioSim := by
  refine ⟨rfl, rfl, rfl, rfl, rfl, rfl, ?_⟩
  exact SimulationUniforms.roundtripSim scenarioSim (by decide)

/-- Claim C8: writing the literal 0 into the gradientStopCount field of any
FrameUniforms and reading the field back retrieves exactly 0. -/
theorem claim_C8_zero_stop_count :
    ∀ u : FrameUniforms,
      (u.setGradientStopCount 0).gradientStopCount = 0 := by
  intro u
  rfl

/-- Claim C9: driftStrength of FrameUniforms and the w component of
displacementMass of SimulationUniforms are inert: writing any other field of
the containing struct leaves them unchanged. -/
theorem claim_C9_reserved_fields_inert :
    (∀ (u : FrameUniforms) (v : Float2),
      (u.setCanvasSize v).driftStrength = u.driftStrength) ∧
    (∀ (u : FrameUniforms) (v : Nat),
      (u.setDotRadius v).driftStrength = u.driftStrength) ∧
    (∀ (u : FrameUniforms) (v : Nat),
      (u.setSmoothing v).driftStrength = u.driftStrength) ∧
    (∀ (u : FrameUniforms) (v : Float2),
      (u.setGradientStart v).driftStrength = u.driftStrength) ∧
    (∀ (u : FrameUniforms) (v : Float2),
      (u.setGradientEnd v).driftStrength = u.driftStrength) ∧
    (∀ (u : FrameUniforms) (v : Nat),
      (u.setTime v).driftStrength = u.driftStrength) ∧
    (∀ (u : FrameUniforms) (v : Int),
      (u.setGradientStopCount v).driftStrength = u.driftStrength) ∧
    (∀ (u : FrameUniforms) (v : Int),
      (u.setPadding v).driftStrength = u.driftStrength) ∧
    (∀ (u : FrameUniforms) (v : Float4),
      (u.setGradientStops v).driftStrength = u.driftStrength) ∧
    (∀ (u : FrameUniforms) (v : Float4),
      (u.setGradientColors0 v).driftStrength = u.driftStrength) ∧
    (∀ (u : FrameUniforms) (v : Float4),
      (u.setGradientColors1 v).driftStrength = u.driftStrength) ∧
    (∀ (u : FrameUniforms) (v : Float4),
      (u.setGradientColors2 v).driftStrength = u.driftStrength) ∧
    (∀ (u : FrameUniforms) (v : Float4),
      (u.setGradientColors3 v).driftStrength = u.driftStrength) ∧
    (∀ (u : SimulationUniforms) (v : Float4),
      (u.setTimeSpring v).displacementMass.w = u.displacementMass.w) ∧
    (∀ (u : SimulationUniforms) (v : Nat),
      (u.setDisplacementMassX v).displacementMass.w =
        u.displacementMass.w) ∧
    (∀ (u : SimulationUniforms) (v : Nat),
      (u.setDisplacementMassY v).displacementMass.w =
        u.displacementMass.w) ∧
    (∀ (u : SimulationUniforms) (v : Nat),
      (u.setDisplacementMassZ v).displacementMass.w =
        u.displacementMass.w) ∧
    (∀ (u : SimulationUniforms) (v : Int),
      (u.setTouchCount v).displacementMass.w = u.displacementMass.w) ∧
    (∀ (u : SimulationUniforms) (v : Int),
      (u.setDotCount v).displacementMass.w = u.displacementMass.w) ∧
    (∀ (u : SimulationUniforms) (v : Int),
      (u.setPadding0 v).displacementMass.w = u.displacementMass.w) ∧
    (∀ (u : SimulationUniforms) (v : Int),
      (u.setPadding1 v).displacementMass.w = u.displacementMass.w) :=
  ⟨fun _ _ => rfl, fun _ _ => rfl, fun _ _ => rfl, fun _ _ => rfl,
   fun _ _ => rfl, fun _ _ => rfl, fun _ _ => rfl, fun _ _ => rfl,
   fun _ _ => rfl, fun _ _ => rfl, fun _ _ => rfl, fun _ _ => rfl,
   fun _ _ => rfl, fun _ _ => rfl, fun _ _ => rfl, fun _ _ => rfl,
   fun _ _ => rfl, fun _ _ => rfl, fun _ _ => rfl, fun _ _ => rfl,
   fun _ _ => rfl⟩

/-- Claim C10: the count and padding fields are 32-bit unsigned integers: a
store of any integer lands in the range 0 to 2^32 excluded, is never
negative, and wraps modulo 2^32; the six named fields all store through this
conversion. -/
theorem claim_C10_uint_fields :
    (∀ v : Int, uintStore v < WORD ∧ 0 ≤ (uintStore v : Int) ∧
      (uintStore v : Int) = v % 4294967296) ∧
    (∀ (u : FrameUniforms) (v : Int),
      (u.setGradientStopCount v).gradientStopCount = uintStore v ∧
      (u.setPadding v)._padding = uintStore v) ∧
    (∀ (u : SimulationUniforms) (v : Int),
      (u.setTouchCount v).touchCount = uintStore v ∧
      (u.setDotCount v).dotCount = uintStore v ∧
      (u.setPadding0 v).padding0 = uintStore v ∧
      (u.setPadding1 v).padding1 = uintStore v) := by
  refine ⟨fun v => ⟨?_, ?_, ?_⟩, fun u v => ⟨rfl, rfl⟩,
    fun u v => ⟨rfl, rfl, rfl, rfl⟩⟩
  · unfold uintStore WORD
    omega
  · unfold uintStore
    omega
  · unfold uintStore
    omega

end ShaderTypes
